import Mathlib

/-!
Verification of the Shimmer REST framework (`rest_framework.py`).

The development shallowly embeds the framework's serializer (`Emitter`),
payload translator (`Mimer`), error taxonomy (`APIException` subclasses),
dispatch pipeline (`Resource.__call__`) and the model-update helper
(`ModelHandler._object_update`), and proves the frozen claims about them.

External collaborators (the JSON parser `json.loads`, Django's ORM
validation, authentication) are taken as explicit function parameters, as
the spec treats them as opaque capabilities.
-/

namespace Shimmer

/-- JSON-safe values: the structures handed to `json.dumps` after
serialization.  Integers, booleans and `None` pass through
`smart_unicode(..., strings_only=True)` unchanged, hence appear here. -/
inductive JValue where
  | str (s : String)
  | int (n : Int)
  | bool (b : Bool)
  | null
  | arr (elems : List JValue)
  | obj (entries : List (String × JValue))

mutual
/-- Python values flowing through `Emitter.construct`, covering the
branches of its type dispatch: byte/unicode strings, QuerySets, lists and
tuples, dicts, `decimal.Decimal` (carried by its exact decimal string, as
`str` of a `Decimal` returns it verbatim), Django model instances,
`datetime`/`date`/`time` values, and the scalars that
`smart_unicode(..., strings_only=True)` passes through unchanged.
A model instance carries its kind (the runtime type used as massager key),
its `_meta.fields` as (attname, value) pairs, and its
`_meta.many_to_many` relations as (attname, related primary keys) pairs;
primary keys are modelled as integers (`AutoField`). -/
inductive Value where
  | str (s : String)
  | int (n : Int)
  | bool (b : Bool)
  | null
  | dec (deciRepr : String)
  | qs (elems : ValueList)
  | list (elems : ValueList)
  | dict (entries : EntryList)
  | model (kind : String) (fields : EntryList) (m2m : List (String × List Int))
  | datetime (y mo d hh mi ss : Nat)
  | date (y mo d : Nat)
  | time (hh mi ss : Nat)

/-- A list of `Value`s (elements of a list, tuple, or QuerySet). -/
inductive ValueList where
  | nil
  | cons (head : Value) (tail : ValueList)

/-- A list of named `Value`s (dict items, or a model's field values). -/
inductive EntryList where
  | nil
  | cons (name : String) (value : Value) (tail : EntryList)
end

/-- A massager callback: receives the assembled (already serialized) field
map and the original model instance, and returns the final serialized
form (`self.massagers[type(data)](ret, data)`). -/
def Massager : Type := List (String × JValue) → Value → JValue

/-- The `Emitter.__init__` configuration: the field-exclusion set, the
per-model-kind massager registry, the emitter's mimetype, and the number
of registered manipulator callbacks (`self.manips`). -/
structure EmitterCfg where
  exclude_fields : List String
  massagers : List (String × Massager)
  mimetype : String
  manips : Nat

/-- Association-list lookup keyed by strings (Python dict lookup). -/
def alistGet {α : Type} (k : String) : List (String × α) → Option α
  | [] => none
  | (k2, v) :: rest => if k = k2 then some v else alistGet k rest

/-- Zero-pad a natural number to two digits (`%M`, `%d`, ...). -/
def pad2 (n : Nat) : String :=
  if n < 10 then "0" ++ toString n else toString n

/-- Zero-pad a natural number to four digits (`%Y`). -/
def pad4 (n : Nat) : String :=
  if n < 10 then "000" ++ toString n
  else if n < 100 then "00" ++ toString n
  else if n < 1000 then "0" ++ toString n
  else toString n

/-- Source format `DATETIME_FORMAT = "%Y-%m-%dT%H:%M:%S%z"` after
`thing.replace(tzinfo=dateutil.tz.tzutc())`, whose `%z` renders `+0000`. -/
def fmtDateTime (y mo d hh mi ss : Nat) : String :=
  pad4 y ++ "-" ++ pad2 mo ++ "-" ++ pad2 d ++ "T" ++
    pad2 hh ++ ":" ++ pad2 mi ++ ":" ++ pad2 ss ++ "+0000"

/-- Source format `DATE_FORMAT = "%Y-%m-%d"`. -/
def fmtDate (y mo d : Nat) : String :=
  pad4 y ++ "-" ++ pad2 mo ++ "-" ++ pad2 d

/-- Source format `TIME_FORMAT = "%H:%M:%S"`. -/
def fmtTime (hh mi ss : Nat) : String :=
  pad2 hh ++ ":" ++ pad2 mi ++ ":" ++ pad2 ss

/-- The many-to-many part of `Emitter._model`: for each relation whose
attname is not excluded, the related objects' primary keys are collected
into a list and passed through `self.construct`; on a plain list of
integer primary keys `construct` yields the corresponding integer array
(proved as `construct_pk_list` below). -/
def m2mEntriesT (cfg : EmitterCfg) : List (String × List Int) → List (String × JValue)
  | [] => []
  | (n, pks) :: rest =>
      if n ∈ cfg.exclude_fields then m2mEntriesT cfg rest
      else (n, JValue.arr (pks.map JValue.int)) :: m2mEntriesT cfg rest

mutual
/-- Source `Emitter.construct` (the type dispatch) fused with `Emitter._model`
(the entity rule).  The first component is the serialized value exactly as
the source computes it; the second component instruments the traversal
with the number of massager invocations performed (the source has no such
counter; it is verification instrumentation only and does not influence
the result). -/
def constructT (cfg : EmitterCfg) : Value → JValue × Nat
  | .str s => (.str s, 0)
  | .int n => (.int n, 0)
  | .bool b => (.bool b, 0)
  | .null => (.null, 0)
  | .dec r => (.str r, 0)
  | .qs l => let p := constructTList cfg l; (.arr p.1, p.2)
  | .list l => let p := constructTList cfg l; (.arr p.1, p.2)
  | .dict es => let p := constructTEntries cfg es; (.obj p.1, p.2)
  | .model k fs m2m =>
      let p := constructTModelFields cfg fs
      let ret := p.1 ++ m2mEntriesT cfg m2m
      match alistGet k cfg.massagers with
      | some mg => (mg ret (.model k fs m2m), p.2 + 1)
      | none => (.obj ret, p.2)
  | .datetime y mo d hh mi ss => (.str (fmtDateTime y mo d hh mi ss), 0)
  | .date y mo d => (.str (fmtDate y mo d), 0)
  | .time hh mi ss => (.str (fmtTime hh mi ss), 0)

/-- Source `Emitter._qs` / `Emitter._list`: element-wise reduction. -/
def constructTList (cfg : EmitterCfg) : ValueList → List JValue × Nat
  | .nil => ([], 0)
  | .cons v vs =>
      let a := constructT cfg v
      let b := constructTList cfg vs
      (a.1 :: b.1, a.2 + b.2)

/-- Source `Emitter._dict`: value-wise reduction, keys copied verbatim. -/
def constructTEntries (cfg : EmitterCfg) : EntryList → List (String × JValue) × Nat
  | .nil => ([], 0)
  | .cons n v vs =>
      let a := constructT cfg v
      let b := constructTEntries cfg vs
      ((n, a.1) :: b.1, a.2 + b.2)

/-- The scalar-field part of `Emitter._model`: each field whose attname is
not in `self.exclude_fields` is recursively constructed and placed under
its name; excluded fields are skipped entirely (their values are not
traversed). -/
def constructTModelFields (cfg : EmitterCfg) : EntryList → List (String × JValue) × Nat
  | .nil => ([], 0)
  | .cons n v vs =>
      let b := constructTModelFields cfg vs
      if n ∈ cfg.exclude_fields then b
      else
        let a := constructT cfg v
        ((n, a.1) :: b.1, a.2 + b.2)
end

namespace Emitter

/-- Source `Emitter.construct`: the serialized value (dropping the invocation
instrumentation). -/
def construct (cfg : EmitterCfg) (v : Value) : JValue :=
  (constructT cfg v).1

/-- The configuration installed by `Emitter.__init__`: excluded fields
`('active', '_state')`, empty massager and manipulator registries, and the
JSON mimetype. -/
def initCfg : EmitterCfg :=
  { exclude_fields := ["active", "_state"]
    massagers := []
    mimetype := "application/json; charset=utf-8"
    manips := 0 }

/-- Outcome of `Emitter._construct`: the result, how many manipulator
callbacks were invoked, and how many full traversals were performed. -/
structure Run where
  result : JValue
  manipInvocations : Nat
  passes : Nat

/-- Source `Emitter._construct`.  Here `ids` is the content of the pending-identifier
registry (`self.ids`) after the collection pass (`_pre_construct`): the
base `Emitter.construct` records nothing into it, and reads neither
`self.collecting` nor `self.ids`, so the collection pass is `construct`
itself and `ids` is taken as a parameter standing for what overriding
rules and manipulators of a subclass recorded.  If any kind accumulated
pending identifiers, every manipulator runs and the input is serialized a
second time; otherwise the collection pass's result is returned as is. -/
def constructTop (cfg : EmitterCfg) (ids : List (String × List Nat)) (data : Value) : Run :=
  let pre := construct cfg data
  if ids.any (fun p => p.2.length != 0) then
    { result := construct cfg data
      manipInvocations := cfg.manips
      passes := 2 }
  else
    { result := pre
      manipInvocations := 0
      passes := 1 }

end Emitter

mutual
/-- Modelled from the spec: the number of entity instances encountered
during one serialization traversal whose kind has a registered massager
("invoked exactly once per entity instance encountered").  An instance is
encountered when the dispatch reaches it: inside lists, QuerySets, dict
values, and the values of non-excluded scalar fields of other entities
(excluded fields are never traversed, and a massager's return value is
final and is not traversed further). -/
def entityCountSpec (cfg : EmitterCfg) : Value → Nat
  | .model k fs _ =>
      entityCountFields cfg fs +
        (if (alistGet k cfg.massagers).isSome then 1 else 0)
  | .qs l => entityCountList cfg l
  | .list l => entityCountList cfg l
  | .dict es => entityCountEntries cfg es
  | .str _ => 0
  | .int _ => 0
  | .bool _ => 0
  | .null => 0
  | .dec _ => 0
  | .datetime _ _ _ _ _ _ => 0
  | .date _ _ _ => 0
  | .time _ _ _ => 0

/-- Entity instances encountered inside a list of values. -/
def entityCountList (cfg : EmitterCfg) : ValueList → Nat
  | .nil => 0
  | .cons v vs => entityCountSpec cfg v + entityCountList cfg vs

/-- Entity instances encountered inside dict values. -/
def entityCountEntries (cfg : EmitterCfg) : EntryList → Nat
  | .nil => 0
  | .cons _ v vs => entityCountSpec cfg v + entityCountEntries cfg vs

/-- Entity instances encountered inside the non-excluded scalar fields of
an entity. -/
def entityCountFields (cfg : EmitterCfg) : EntryList → Nat
  | .nil => 0
  | .cons n v vs =>
      if n ∈ cfg.exclude_fields then entityCountFields cfg vs
      else entityCountSpec cfg v + entityCountFields cfg vs
end

mutual
/-- The serializer's massager-invocation count agrees with the spec-side
count of encountered entity instances with a registered massager. -/
theorem constructT_count (cfg : EmitterCfg) :
    (v : Value) → (constructT cfg v).2 = entityCountSpec cfg v
  | .str _ => rfl
  | .int _ => rfl
  | .bool _ => rfl
  | .null => rfl
  | .dec _ => rfl
  | .qs l => by
      simp only [constructT, entityCountSpec, constructTList_count cfg l]
  | .list l => by
      simp only [constructT, entityCountSpec, constructTList_count cfg l]
  | .dict es => by
      simp only [constructT, entityCountSpec, constructTEntries_count cfg es]
  | .model k fs m2m => by
      cases hmg : alistGet k cfg.massagers <;>
        simp [constructT, entityCountSpec, hmg,
          constructTModelFields_count cfg fs]
  | .datetime _ _ _ _ _ _ => rfl
  | .date _ _ _ => rfl
  | .time _ _ _ => rfl

/-- List case of `constructT_count`. -/
theorem constructTList_count (cfg : EmitterCfg) :
    (l : ValueList) → (constructTList cfg l).2 = entityCountList cfg l
  | .nil => rfl
  | .cons v vs => by
      simp only [constructTList, entityCountList, constructT_count cfg v,
        constructTList_count cfg vs]

/-- Dict case of `constructT_count`. -/
theorem constructTEntries_count (cfg : EmitterCfg) :
    (es : EntryList) → (constructTEntries cfg es).2 = entityCountEntries cfg es
  | .nil => rfl
  | .cons n v vs => by
      simp only [constructTEntries, entityCountEntries, constructT_count cfg v,
        constructTEntries_count cfg vs]

/-- Model-field case of `constructT_count`. -/
theorem constructTModelFields_count (cfg : EmitterCfg) :
    (es : EntryList) → (constructTModelFields cfg es).2 = entityCountFields cfg es
  | .nil => rfl
  | .cons n v vs => by
      by_cases hx : n ∈ cfg.exclude_fields <;>
        simp only [constructTModelFields, entityCountFields, hx, if_true,
          if_false, constructT_count cfg v, constructTModelFields_count cfg vs]
end

/-- Serializing a list of bare integer primary keys yields the
corresponding integer array and performs no massager call. -/
theorem constructTList_pk (cfg : EmitterCfg) (pks : List Int) :
    constructTList cfg (pks.foldr (fun n acc => ValueList.cons (Value.int n) acc) ValueList.nil) =
      (pks.map JValue.int, 0) := by
  induction pks with
  | nil => rfl
  | cons p rest ih => simp [List.foldr, constructTList, constructT, ih]

/-- Evaluating `self.construct(objs)` on the collected list of integer primary keys
evaluates to the integer array written directly in `m2mEntriesT`. -/
theorem construct_pk_list (cfg : EmitterCfg) (pks : List Int) :
    constructT cfg (Value.list (pks.foldr (fun n acc => ValueList.cons (Value.int n) acc) ValueList.nil)) =
      (JValue.arr (pks.map JValue.int), 0) := by
  simp [constructT, constructTList_pk]

/-- The `APIException` subclasses actually raised by the framework:
`NotImplemented`, `InvalidParameter`, `InvalidPermission`, `DoesNotExist`.
Each constructor carries exactly its `__init__` arguments.
`InvalidParameter`'s first argument is `str`-rendered where the source
passes a non-string (the `override` case passes a validation message
dict). -/
inductive APIErr where
  | notImplemented (method : String)
  | invalidParameter (parameter : String) (value : Option JValue)
      (override : Bool) (fix : Option String)
  | invalidPermission (perm : Option String)
  | doesNotExist (parameter : String) (kwargs : List (String × String))

namespace APIErr

/-- The `self.message` attribute assembled by each constructor. -/
def message : APIErr → String
  | .notImplemented m =>
      "The method '" ++ m ++ "' is not implemented for this resource."
  | .invalidParameter p _ ov _ =>
      if ov then p else "The provided " ++ p ++ " was invalid."
  | .invalidPermission _ => "You do not have permission to do that."
  | .doesNotExist p kwargs =>
      "The " ++ p ++ " with " ++
        String.intercalate " and "
          (kwargs.map (fun q => q.1 ++ " \x7b" ++ q.2 ++ "\x7d")) ++
        " does not exist."

/-- The `self.status` attribute assembled by each constructor. -/
def status : APIErr → Nat
  | .notImplemented _ => 405
  | .invalidParameter _ _ _ _ => 400
  | .invalidPermission _ => 401
  | .doesNotExist _ _ => 404

/-- Source `InvalidParameter.__init__` overrides the given fix for the
`'mime_type'` parameter. -/
def effectiveFix : APIErr → Option String
  | .invalidParameter p _ _ fix =>
      if p = "mime_type"
      then some "Expected 'application/json' in header 'CONTENT_TYPE'"
      else fix
  | _ => none

/-- The `self.returnerror` structure assembled by each constructor (the
body later passed to `json.dumps` by the dispatch pipeline). -/
def returnerror : APIErr → JValue
  | .notImplemented m =>
      .obj [("error", .obj [("type", .str "NotImplemented"),
        ("message", .str (message (.notImplemented m)))])]
  | .invalidParameter p v ov fix =>
      .obj [("error", .obj
        ([("type", .str "InvalidParameter"),
          ("message", .str (message (.invalidParameter p v ov fix)))] ++
         (match effectiveFix (.invalidParameter p v ov fix) with
          | some f => [("fix", .str f)]
          | none => []) ++
         (match v with
          | some v0 => [("value", v0)]
          | none => [])))]
  | .invalidPermission perm =>
      .obj [("error", .obj
        ([("type", .str "InvalidPermission"),
          ("message", .str (message (.invalidPermission perm)))] ++
         (match perm with
          | some p0 => [("perm", .str p0)]
          | none => [])))]
  | .doesNotExist p kwargs =>
      .obj [("error", .obj [("type", .str "DoesNotExist"),
        ("message", .str (message (.doesNotExist p kwargs)))])]

end APIErr

/-- An inbound HTTP request, with the fields the framework touches:
`method`, `raw_post_data`, the declared `content_type`, the combined
query/form parameters `REQUEST`, the verb-specific form dicts
`POST`/`PUT`, and the `data` slot `Mimer.translate` fills. -/
structure Request where
  method : String
  raw_post_data : String
  content_type : String
  REQUEST : List (String × String)
  POST : List (String × String)
  PUT : List (String × String)
  data : Option Value

/-- Source `request.method.upper()`: character-wise upper casing. -/
def pyUpper (s : String) : String := String.mk (s.data.map Char.toUpper)

namespace Mimer

/-- Source `Mimer.translate`.  Here `loads` stands for the external `json.loads`:
`none` models it raising `TypeError`/`ValueError`.  The declared content
type is not examined; it is overwritten with `'application/json'`.  An
empty body yields the empty-string datum without parsing; otherwise the
parsed value is stored on `request.data` and the verb-specific form dicts
are cleared; a parse failure raises `InvalidParameter("JSON")`. -/
def translate (loads : String → Option Value) (req : Request) :
    Except APIErr Request :=
  if req.raw_post_data = "" then
    Except.ok { req with
      content_type := "application/json"
      data := some (.str "")
      POST := []
      PUT := [] }
  else
    match loads req.raw_post_data with
    | some v =>
        Except.ok { req with
          content_type := "application/json"
          data := some v
          POST := []
          PUT := [] }
    | none => Except.error (.invalidParameter "JSON" none false none)

end Mimer

/-- The outcome of one handler-method call: a returned result together
with the status the handler left in `handler.status` (reset to `None`
before the call), a raised `APIException`, or any other raised fault
(carried with the text `str(traceback.format_exc())` would render). -/
inductive HandlerOutcome where
  | ok (result : Option Value) (status : Option Nat)
  | apiErr (e : APIErr)
  | fault (detail : String)

/-- A handler instance: the four CRUD methods of `BaseHandler`. -/
structure Handler where
  read : Request → HandlerOutcome
  create : Request → HandlerOutcome
  update : Request → HandlerOutcome
  delete : Request → HandlerOutcome

namespace Handler

/-- Source `meth = getattr(handler, method_string, ...); result = meth(request)`.
`method_string` always comes from `callmap`, so the catch-all branch is
unreachable from the dispatch pipeline. -/
def invoke (h : Handler) (methodString : String) (req : Request) : HandlerOutcome :=
  match methodString with
  | "read" => h.read req
  | "create" => h.create req
  | "update" => h.update req
  | "delete" => h.delete req
  | other => .fault other

end Handler

/-- Source `BaseHandler`: every CRUD method raises `NotImplemented` for its
verb. -/
def baseHandler : Handler :=
  { read := fun _ => .apiErr (.notImplemented "GET")
    create := fun _ => .apiErr (.notImplemented "POST")
    update := fun _ => .apiErr (.notImplemented "PUT")
    delete := fun _ => .apiErr (.notImplemented "DELETE") }

/-- The response body: either a raw string handed to `HttpResponse`
directly (the 204 empty body) or a structure serialized by
`json.dumps`. -/
inductive StreamVal where
  | raw (s : String)
  | json (v : JValue)

/-- The `HttpResponse` triple built at the single exit point of
`Resource.__call__`. -/
structure Response where
  stream : StreamVal
  status : Nat
  mimetype : String

/-- Per-resource configuration: the output-representation registry
`Resource.output` (each entry an emitter class, i.e. the configuration
its `__init__` installs), `settings.DEBUG`, and `django_version()`. -/
structure ResourceCfg where
  output : List (String × EmitterCfg)
  debug : Bool
  djangoVersion : String

namespace Resource

/-- Source `Resource.callmap`: the fixed verb table. -/
def callmap : List (String × String) :=
  [("GET", "read"), ("POST", "create"), ("PUT", "update"), ("DELETE", "delete")]

end Resource

/-- Response for a caught `APIException`:
`json.dumps(e.returnerror)`, `e.status`, `application/json`. -/
def apiErrResponse (e : APIErr) : Response :=
  { stream := .json e.returnerror
    status := e.status
    mimetype := "application/json" }

/-- Response for any other caught exception: status 500, type
`"APIError"`, with the crash report exposed only when `settings.DEBUG`
is set. -/
def faultResponse (rcfg : ResourceCfg) (detail : String) : Response :=
  { stream := .json (.obj [("error", .obj
      [("type", .str "APIError"),
       ("message", .str
         (if rcfg.debug then
            "API (Django " ++ rcfg.djangoVersion ++ ") crash report:\n\n" ++ detail
          else
            "An API error has occured, please try again later."))])])
    status := 500
    mimetype := "application/json" }

/-- The message of the `NameError` raised while evaluating the arguments
of the `raise InvalidParameter(...)` statement in the unknown-output
branch of `Resource.__call__`: that statement reads the undefined name
`outputformat` (the variable in scope is `output_format`; the same line
also joins over the uncalled method object `self.output.keys`), so the
intended `InvalidParameter` is never constructed and a `NameError`
escapes the bare `except:` clause into the generic `except Exception`
handler. -/
def nameErrorOutputformat : String :=
  "NameError: global name 'outputformat' is not defined"

/-- Step 2 of `Resource.__call__`: for `POST` and `PUT` the body is
translated by a fresh `Mimer`; other verbs skip translation. -/
def normalizeBody (loads : String → Option Value) (rm : String) (req : Request) :
    Except APIErr Request :=
  if rm = "POST" ∨ rm = "PUT" then Mimer.translate loads req else Except.ok req

namespace Resource

/-- Source `Resource.__call__`.  The authentication step is a no-op in the
source (`self.auth` does not exist, and the `AttributeError` is passed
over); `handler.status` is reset before the call and is modelled as part
of `HandlerOutcome`.  Success with `None` yields the 204 empty-body
response without touching the serializer; otherwise the output
representation is resolved from the `output` query parameter, the result
runs through the emitter's two-pass `_construct` (the base emitters in
the registry record no pending identifiers), and the body is
`{"data": ...}` with the handler's status or 200.  An unknown output name
takes the `NameError` path described at `nameErrorOutputformat`, hence
the generic 500 response. -/
def call (rcfg : ResourceCfg) (loads : String → Option Value)
    (h : Handler) (req : Request) : Response :=
  match normalizeBody loads (pyUpper req.method) req with
  | .error e => apiErrResponse e
  | .ok req2 =>
    match alistGet (pyUpper req.method) Resource.callmap with
    | none => apiErrResponse (.notImplemented (pyUpper req.method))
    | some ms =>
      match h.invoke ms req2 with
      | .apiErr e => apiErrResponse e
      | .fault detail => faultResponse rcfg detail
      | .ok none _ =>
          { stream := .raw "", status := 204, mimetype := "text/plain" }
      | .ok (some result) hst =>
          match alistGet ((alistGet "output" req2.REQUEST).getD "default") rcfg.output with
          | none => faultResponse rcfg nameErrorOutputformat
          | some ecfg =>
              { stream := .json (.obj
                  [("data", (Emitter.constructTop ecfg [] result).result)])
                status := hst.getD 200
                mimetype := ecfg.mimetype }

end Resource

/-- One entry of a model's `_meta` field table, as consulted by
`obj._meta.get_field(key)`: the field name and whether the field is a
`ManyToManyField`. -/
structure FieldMeta where
  name : String
  isM2M : Bool

/-- Source `obj._meta.get_field(key)`; `none` models `FieldDoesNotExist`. -/
def metaGetField (fields : List FieldMeta) (key : String) : Option FieldMeta :=
  fields.find? (fun f => f.name == key)

/-- The externally visible effects of one `_object_update` call:
the `setattr` assignments performed on the in-memory object, whether
`obj.save()` ran (the persistent-store write), and the many-to-many
`clear()`/`add(*values)` writes performed after the save. -/
structure UpdateTrace where
  attrsSet : List (String × Value)
  saveCalled : Bool
  m2mWrites : List (String × Value)

namespace ModelHandler

/-- The item loop of `ModelHandler._object_update`: items are processed
in order; a `ManyToManyField` value is set aside for after the save, any
other declared field is assigned with `setattr`, and an undeclared key
raises `InvalidParameter(key)` on the spot (assignments made for earlier
items remain on the in-memory object). -/
def updateLoop (fields : List FieldMeta) :
    List (String × Value) → List (String × Value) → List (String × Value) →
      Option APIErr × List (String × Value) × List (String × Value)
  | [], attrs, m2ms => (none, attrs, m2ms)
  | (key, value) :: rest, attrs, m2ms =>
    match metaGetField fields key with
    | none => (some (.invalidParameter key none false none), attrs, m2ms)
    | some f =>
        if f.isM2M then updateLoop fields rest attrs (m2ms ++ [(key, value)])
        else updateLoop fields rest (attrs ++ [(key, value)]) m2ms

/-- Source `ModelHandler._object_update`.  Here `cleanError` stands for the external
`obj.full_clean(); obj.save()` pair raising `ValidationError` (carrying
`str(e.message_dict)`); when it is `none` the save succeeds and the
deferred many-to-many writes are applied.  On any raised error no save
and no many-to-many write has been performed. -/
def objectUpdate (fields : List FieldMeta) (cleanError : Option String)
    (items : List (String × Value)) : Option APIErr × UpdateTrace :=
  match updateLoop fields items [] [] with
  | (some e, attrs, _) =>
      (some e, { attrsSet := attrs, saveCalled := false, m2mWrites := [] })
  | (none, attrs, m2ms) =>
      match cleanError with
      | some msg =>
          (some (.invalidParameter msg none true none),
           { attrsSet := attrs, saveCalled := false, m2mWrites := [] })
      | none =>
          (none, { attrsSet := attrs, saveCalled := true, m2mWrites := m2ms })

end ModelHandler

/-- Membership of a named value among an entity's declared scalar
fields. -/
def EntryList.mem (n : String) (v : Value) : EntryList → Prop
  | .nil => False
  | .cons n2 v2 rest => (n = n2 ∧ v = v2) ∨ EntryList.mem n v rest

/-- No entry produced by the scalar-field part of the entity rule carries
an excluded name. -/
theorem modelFields_not_excluded (cfg : EmitterCfg) :
    (es : EntryList) → ∀ p ∈ (constructTModelFields cfg es).1, p.1 ∉ cfg.exclude_fields
  | .nil => by simp [constructTModelFields]
  | .cons n v vs => by
      intro p hp
      by_cases hx : n ∈ cfg.exclude_fields
      · simp only [constructTModelFields, if_pos hx] at hp
        exact modelFields_not_excluded cfg vs p hp
      · simp only [constructTModelFields, if_neg hx, List.mem_cons] at hp
        rcases hp with hp | hp
        · rw [hp]; exact hx
        · exact modelFields_not_excluded cfg vs p hp

/-- No entry produced by the many-to-many part of the entity rule carries
an excluded name. -/
theorem m2mEntries_not_excluded (cfg : EmitterCfg) :
    (m2m : List (String × List Int)) → ∀ p ∈ m2mEntriesT cfg m2m, p.1 ∉ cfg.exclude_fields
  | [] => by simp [m2mEntriesT]
  | (n, pks) :: rest => by
      intro p hp
      by_cases hx : n ∈ cfg.exclude_fields
      · simp only [m2mEntriesT, if_pos hx] at hp
        exact m2mEntries_not_excluded cfg rest p hp
      · simp only [m2mEntriesT, if_neg hx, List.mem_cons] at hp
        rcases hp with hp | hp
        · rw [hp]; exact hx
        · exact m2mEntries_not_excluded cfg rest p hp

/-- Every non-excluded scalar field appears, serialized, in the entity
rule's field map. -/
theorem modelFields_mem (cfg : EmitterCfg) :
    (es : EntryList) → ∀ n v, EntryList.mem n v es → n ∉ cfg.exclude_fields →
      (n, (constructT cfg v).1) ∈ (constructTModelFields cfg es).1
  | .nil => by intro n v hm; exact absurd hm id
  | .cons n2 v2 vs => by
      intro n v hm hn
      rcases hm with ⟨he1, he2⟩ | hm
      · subst he1; subst he2
        simp only [constructTModelFields, if_neg hn]
        exact List.mem_cons_self _ _
      · by_cases hx : n2 ∈ cfg.exclude_fields
        · simp only [constructTModelFields, if_pos hx]
          exact modelFields_mem cfg vs n v hm hn
        · simp only [constructTModelFields, if_neg hx]
          exact List.mem_cons_of_mem _ (modelFields_mem cfg vs n v hm hn)

/-- Every non-excluded many-to-many relation appears, reduced to the list
of related primary keys, in the entity rule's field map. -/
theorem m2mEntries_mem (cfg : EmitterCfg) :
    (m2m : List (String × List Int)) → ∀ n pks, (n, pks) ∈ m2m →
      n ∉ cfg.exclude_fields → (n, JValue.arr (pks.map JValue.int)) ∈ m2mEntriesT cfg m2m
  | [] => by intro n pks hm; exact absurd hm (by simp)
  | (n2, pks2) :: rest => by
      intro n pks hm hn
      rcases List.mem_cons.mp hm with hm | hm
      · obtain ⟨he1, he2⟩ := Prod.mk.injEq _ _ _ _ ▸ hm
        subst he1; subst he2
        simp only [m2mEntriesT, if_neg hn]
        exact List.mem_cons_self _ _
      · by_cases hx : n2 ∈ cfg.exclude_fields
        · simp only [m2mEntriesT, if_pos hx]
          exact m2mEntries_mem cfg rest n pks hm hn
        · simp only [m2mEntriesT, if_neg hx]
          exact List.mem_cons_of_mem _ (m2mEntries_mem cfg rest n pks hm hn)

/-- C2: If no manipulator and no entity rule records any pending
identifier during the collection pass, `Emitter._construct` returns
exactly the collection pass's result, which equals a direct single-pass
`Emitter.construct` of the same input; no second traversal is performed
and no manipulator is invoked. -/
theorem c2_two_pass_idempotence (cfg : EmitterCfg) (ids : List (String × List Nat))
    (data : Value) (hid : ∀ p ∈ ids, p.2 = ([] : List Nat)) :
    Emitter.constructTop cfg ids data =
      { result := Emitter.construct cfg data
        manipInvocations := 0
        passes := 1 } := by
  have hany : ids.any (fun p => p.2.length != 0) = false := by
    rw [List.any_eq_false]
    intro p hp
    simp [hid p hp]
  simp [Emitter.constructTop, hany]

/-- Witness for C2 at a registry that only holds an empty identifier set,
on an emitter with two registered manipulators. -/
theorem c2_two_pass_idempotence_witness :
    (∀ p ∈ [("event", ([] : List Nat))], p.2 = ([] : List Nat)) ∧
    Emitter.constructTop { Emitter.initCfg with manips := 2 } [("event", [])]
        (.list (.cons (.str "x") .nil)) =
      { result := .arr [.str "x"], manipInvocations := 0, passes := 1 } :=
  ⟨by decide,
   c2_two_pass_idempotence { Emitter.initCfg with manips := 2 } [("event", [])]
     (.list (.cons (.str "x") .nil)) (by decide)⟩

/-- C3: For an entity whose kind has a registered massager, the
serialized form is the massager's return value applied to the assembled
(already serialized) field map and the original entity, and over any one
traversal the number of massager invocations equals the number of entity
instances encountered whose kind has a registered massager. -/
theorem c3_massager_applied_once (cfg : EmitterCfg) (k : String) (fs : EntryList)
    (m2m : List (String × List Int)) (mg : Massager)
    (hmg : alistGet k cfg.massagers = some mg) :
    Emitter.construct cfg (.model k fs m2m) =
      mg ((constructTModelFields cfg fs).1 ++ m2mEntriesT cfg m2m) (.model k fs m2m) ∧
    ∀ v : Value, (constructT cfg v).2 = entityCountSpec cfg v := by
  refine ⟨?_, constructT_count cfg⟩
  simp [Emitter.construct, constructT, hmg]

/-- A concrete massager prepending a marker entry to the field map. -/
def mgC3 : Massager := fun ret _ => JValue.obj (("massaged", JValue.bool true) :: ret)

/-- An emitter configuration registering `mgC3` for kind `"thing"`. -/
def cfgC3 : EmitterCfg := { Emitter.initCfg with massagers := [("thing", mgC3)] }

/-- A concrete entity of kind `"thing"` with one scalar field. -/
def entityC3 : Value := .model "thing" (.cons "name" (.str "a") .nil) []

/-- Witness for C3: the massager's return value is the serialized form,
and serializing a list holding the entity twice makes exactly two
massager invocations. -/
theorem c3_massager_applied_once_witness :
    Emitter.construct cfgC3 entityC3 =
      JValue.obj [("massaged", .bool true), ("name", .str "a")] ∧
    (constructT cfgC3 (.list (.cons entityC3 (.cons entityC3 .nil)))).2 = 2 :=
  ⟨(c3_massager_applied_once cfgC3 "thing" (.cons "name" (.str "a") .nil) [] mgC3 rfl).1,
   (c3_massager_applied_once cfgC3 "thing" (.cons "name" (.str "a") .nil) [] mgC3 rfl).2
     (.list (.cons entityC3 (.cons entityC3 .nil)))⟩

/-- An emitter configuration whose massager for kind `"thing"` returns a
map carrying the excluded key `"active"`. -/
def cfgC5 : EmitterCfg :=
  { Emitter.initCfg with massagers := [("thing", fun _ _ => .obj [("active", .null)])] }

/-- Counterexample to C5 as stated: with a registered massager that
returns a map holding the excluded key `"active"`, the serialized form of
the entity contains an excluded key, because the massager's return value
replaces the assembled map unchecked. -/
theorem c5_counterexample_massager :
    Emitter.construct cfgC5 (.model "thing" (.cons "name" (.str "a") .nil) []) =
      JValue.obj [("active", JValue.null)] ∧
    "active" ∈ cfgC5.exclude_fields :=
  ⟨rfl, List.mem_cons_self _ _⟩

/-- C5 (amended: for entities whose kind has no registered massager): the
serialized map contains no excluded key, every non-excluded scalar field
appears under its name with its recursively reduced value, every
non-excluded many-to-many relation appears as the list of related primary
keys, and the default exclusion set is `('active', '_state')`. -/
theorem c5_exclusion_respected (cfg : EmitterCfg) (k : String) (fs : EntryList)
    (m2m : List (String × List Int)) (hmg : alistGet k cfg.massagers = none) :
    Emitter.construct cfg (.model k fs m2m) =
      .obj ((constructTModelFields cfg fs).1 ++ m2mEntriesT cfg m2m) ∧
    (∀ p ∈ (constructTModelFields cfg fs).1 ++ m2mEntriesT cfg m2m,
      p.1 ∉ cfg.exclude_fields) ∧
    (∀ n v, EntryList.mem n v fs → n ∉ cfg.exclude_fields →
      (n, (constructT cfg v).1) ∈ (constructTModelFields cfg fs).1 ++ m2mEntriesT cfg m2m) ∧
    (∀ n pks, (n, pks) ∈ m2m → n ∉ cfg.exclude_fields →
      (n, JValue.arr (pks.map JValue.int)) ∈
        (constructTModelFields cfg fs).1 ++ m2mEntriesT cfg m2m) ∧
    Emitter.initCfg.exclude_fields = ["active", "_state"] := by
  refine ⟨by simp [Emitter.construct, constructT, hmg], ?_, ?_, ?_, rfl⟩
  · intro p hp
    rcases List.mem_append.mp hp with hp | hp
    · exact modelFields_not_excluded cfg fs p hp
    · exact m2mEntries_not_excluded cfg m2m p hp
  · intro n v hm hn
    exact List.mem_append.mpr (Or.inl (modelFields_mem cfg fs n v hm hn))
  · intro n pks hm hn
    exact List.mem_append.mpr (Or.inr (m2mEntries_mem cfg m2m n pks hm hn))

/-- Witness for C5 on a concrete entity with one kept field, one excluded
field, and one many-to-many relation. -/
theorem c5_exclusion_respected_witness :
    Emitter.construct Emitter.initCfg
        (.model "thing" (.cons "name" (.str "a") (.cons "active" (.bool true) .nil))
          [("tags", [1, 2])]) =
      JValue.obj [("name", .str "a"), ("tags", .arr [.int 1, .int 2])] :=
  (c5_exclusion_respected Emitter.initCfg "thing"
    (.cons "name" (.str "a") (.cons "active" (.bool true) .nil)) [("tags", [1, 2])] rfl).1

/-- The resource configuration of the source: output registry
`{'default': Emitter}`, `settings.DEBUG` off. -/
def stdCfg : ResourceCfg :=
  { output := [("default", Emitter.initCfg)], debug := false, djangoVersion := "1.3" }

/-- A `json.loads` stand-in that always fails. -/
def loadsNone : String → Option Value := fun _ => none

/-- A handler whose `read` returns a serializable value. -/
def handlerC1 : Handler :=
  { baseHandler with read := fun _ => .ok (some (.str "hello")) none }

/-- A GET request asking for the unregistered output representation
`xml`. -/
def reqC1 : Request :=
  { method := "GET", raw_post_data := "", content_type := "", REQUEST := [("output", "xml")],
    POST := [], PUT := [], data := none }

/-- C1 (code bug): a GET whose `output` parameter names a representation
absent from the registry responds 500 with an `APIError` body — not the
400 `InvalidParameter` naming "emission type" that the claim (and the
`raise` statement in the source) intends — because the `raise
InvalidParameter(...)` in the unknown-output branch reads the undefined
name `outputformat` (and joins over the uncalled `self.output.keys`), so
a `NameError` escapes to the generic exception handler. -/
theorem c1_unknown_output_is_500 :
    (Resource.call stdCfg loadsNone handlerC1 reqC1).status = 500 ∧
    (Resource.call stdCfg loadsNone handlerC1 reqC1).stream =
      .json (.obj [("error", .obj [("type", .str "APIError"),
        ("message", .str "An API error has occured, please try again later.")])]) ∧
    (Resource.call stdCfg loadsNone handlerC1 reqC1).status ≠ 400 :=
  ⟨rfl, rfl, by decide⟩

/-- A write request declaring a non-JSON content type with a
well-formed JSON body. -/
def reqC4 : Request :=
  { method := "POST", raw_post_data := "\x7b\x7d", content_type := "text/xml",
    REQUEST := [], POST := [("a", "b")], PUT := [], data := none }

/-- A `json.loads` stand-in that parses the empty-object document. -/
def loadsC4 : String → Option Value :=
  fun s => if s = "\x7b\x7d" then some (.dict .nil) else none

/-- Counterexample to C4 as stated: a POST declaring content type
`text/xml` is translated successfully — no `InvalidParameter` (in
particular none naming `mime_type`) is raised, because `Mimer.translate`
never examines the declared content type. -/
theorem c4_counterexample_no_mime_error :
    reqC4.content_type = "text/xml" ∧
    Mimer.translate loadsC4 reqC4 =
      .ok { reqC4 with
        content_type := "application/json"
        data := some (.dict .nil)
        POST := []
        PUT := [] } :=
  ⟨rfl, rfl⟩

/-- C4 (amended): the Payload Translator performs no content-type check
at all — it overwrites the declared content type with the supported JSON
type and either succeeds, or raises `InvalidParameter` with parameter
identifier `"JSON"` (on a non-empty body that fails to parse); no
`"mime_type"` `InvalidParameter` is ever raised by it. -/
theorem c4_no_mime_type_check (loads : String → Option Value) (req : Request) :
    (∃ req2, Mimer.translate loads req = .ok req2 ∧
      req2.content_type = "application/json") ∨
    Mimer.translate loads req =
      .error (.invalidParameter "JSON" none false none) := by
  unfold Mimer.translate
  split
  · exact Or.inl ⟨_, rfl, rfl⟩
  · split
    · exact Or.inl ⟨_, rfl, rfl⟩
    · exact Or.inr rfl

/-- C6: a request whose verb is not in the fixed table responds 405 with
error body type `"NotImplemented"`, and no handler method is invoked (the
response does not depend on the handler, nor on the body parser). -/
theorem c6_unmapped_verb_405 (rcfg : ResourceCfg) (loads : String → Option Value)
    (h : Handler) (req : Request)
    (hv : alistGet (pyUpper req.method) Resource.callmap = none) :
    Resource.call rcfg loads h req =
      apiErrResponse (.notImplemented (pyUpper req.method)) ∧
    (Resource.call rcfg loads h req).status = 405 ∧
    (APIErr.notImplemented (pyUpper req.method)).returnerror =
      .obj [("error", .obj [("type", .str "NotImplemented"),
        ("message", .str ("The method '" ++ (pyUpper req.method) ++
          "' is not implemented for this resource."))])] ∧
    ∀ (loads2 : String → Option Value) (h2 : Handler),
      Resource.call rcfg loads2 h2 req = Resource.call rcfg loads h req := by
  have hp : (pyUpper req.method) ≠ "POST" := by
    intro he; rw [he] at hv; exact absurd hv (by decide)
  have hq : (pyUpper req.method) ≠ "PUT" := by
    intro he; rw [he] at hv; exact absurd hv (by decide)
  have hnb : ∀ loads2 : String → Option Value,
      normalizeBody loads2 (pyUpper req.method) req = .ok req := by
    intro loads2
    unfold normalizeBody
    rw [if_neg]
    rintro (he | he)
    · exact hp he
    · exact hq he
  have hcall : ∀ (loads2 : String → Option Value) (h2 : Handler),
      Resource.call rcfg loads2 h2 req =
        apiErrResponse (.notImplemented (pyUpper req.method)) := by
    intro loads2 h2
    unfold Resource.call
    rw [hnb loads2]
    simp only [hv]
  refine ⟨hcall loads h, ?_, rfl, fun loads2 h2 => (hcall loads2 h2).trans (hcall loads h).symm⟩
  rw [hcall loads h]
  rfl

/-- A request using the unmapped verb `PATCH`. -/
def reqC6 : Request :=
  { method := "PATCH", raw_post_data := "", content_type := "", REQUEST := [],
    POST := [], PUT := [], data := none }

/-- Witness for C6 at the verb `PATCH` against the base handler. -/
theorem c6_unmapped_verb_405_witness :
    (Resource.call stdCfg loadsNone baseHandler reqC6).status = 405 ∧
    Resource.call stdCfg loadsNone baseHandler reqC6 =
      apiErrResponse (.notImplemented "PATCH") :=
  ⟨(c6_unmapped_verb_405 stdCfg loadsNone baseHandler reqC6 rfl).2.1,
   (c6_unmapped_verb_405 stdCfg loadsNone baseHandler reqC6 rfl).1⟩

/-- C7: a POST or PUT whose non-empty body fails to parse as JSON
responds 400 with an `InvalidParameter` body whose message names the
parameter `"JSON"`; a POST or PUT with an empty body translates to the
empty value without raising. -/
theorem c7_malformed_json_400 (rcfg : ResourceCfg) (loads : String → Option Value)
    (h : Handler) (req : Request)
    (hm : (pyUpper req.method) = "POST" ∨ (pyUpper req.method) = "PUT") :
    (req.raw_post_data ≠ "" → loads req.raw_post_data = none →
      Resource.call rcfg loads h req =
        { stream := .json (.obj [("error", .obj [("type", .str "InvalidParameter"),
            ("message", .str "The provided JSON was invalid.")])])
          status := 400
          mimetype := "application/json" }) ∧
    (req.raw_post_data = "" →
      Mimer.translate loads req =
        .ok { req with
          content_type := "application/json"
          data := some (.str "")
          POST := []
          PUT := [] }) := by
  constructor
  · intro hb hl
    have htr : Mimer.translate loads req =
        .error (.invalidParameter "JSON" none false none) := by
      unfold Mimer.translate
      rw [if_neg hb, hl]
    have hnb : normalizeBody loads (pyUpper req.method) req =
        .error (.invalidParameter "JSON" none false none) := by
      unfold normalizeBody
      rw [if_pos hm, htr]
    unfold Resource.call
    rw [hnb]
    rfl
  · intro hb
    unfold Mimer.translate
    rw [if_pos hb]

/-- A POST request with an unparseable body. -/
def reqC7 : Request :=
  { method := "POST", raw_post_data := "not json", content_type := "application/json",
    REQUEST := [], POST := [], PUT := [], data := none }

/-- A POST request with an empty body. -/
def reqC7e : Request :=
  { method := "POST", raw_post_data := "", content_type := "application/json",
    REQUEST := [], POST := [], PUT := [], data := none }

/-- Witness for C7: the malformed-body POST yields the 400
`InvalidParameter "JSON"` response, and the empty-body POST translates
without raising. -/
theorem c7_malformed_json_400_witness :
    Resource.call stdCfg loadsNone baseHandler reqC7 =
      { stream := .json (.obj [("error", .obj [("type", .str "InvalidParameter"),
          ("message", .str "The provided JSON was invalid.")])])
        status := 400
        mimetype := "application/json" } ∧
    Mimer.translate loadsNone reqC7e =
      .ok { reqC7e with
        content_type := "application/json"
        data := some (.str "")
        POST := []
        PUT := [] } :=
  ⟨(c7_malformed_json_400 stdCfg loadsNone baseHandler reqC7 (Or.inl rfl)).1
      (by decide) rfl,
   (c7_malformed_json_400 stdCfg loadsNone baseHandler reqC7e (Or.inl rfl)).2 rfl⟩

/-- The status codes the spec allows the dispatch pipeline to produce. -/
def allowedStatuses : List Nat := [200, 204, 400, 401, 404, 405, 500]

/-- Every error of the taxonomy carries one of the allowed statuses. -/
theorem apiErr_status_allowed (e : APIErr) : e.status ∈ allowedStatuses := by
  cases e <;> simp [APIErr.status, allowedStatuses]

/-- A handler whose `read` sets the explicit status 418. -/
def handlerC8 : Handler :=
  { baseHandler with read := fun _ => .ok (some (.str "x")) (some 418) }

/-- A plain GET request. -/
def reqC8 : Request :=
  { method := "GET", raw_post_data := "", content_type := "", REQUEST := [],
    POST := [], PUT := [], data := none }

/-- Counterexample to C8 as stated: a handler that sets the explicit
status 418 makes the dispatch pipeline return 418 — the handler-set
status is passed through unchecked, so the claim's "including when the
handler sets an explicit status" fails. -/
theorem c8_counterexample_status_passthrough :
    (Resource.call stdCfg loadsNone handlerC8 reqC8).status = 418 ∧
    418 ∉ allowedStatuses :=
  ⟨rfl, by decide⟩

/-- C8 (amended: provided every status the handler explicitly sets is
itself in the set): the status of every dispatched response is one of
200, 204, 400, 401, 404, 405, 500. -/
theorem c8_status_codes (rcfg : ResourceCfg) (loads : String → Option Value)
    (h : Handler) (req : Request)
    (hstat : ∀ ms req2 r s, h.invoke ms req2 = HandlerOutcome.ok r (some s) →
      s ∈ allowedStatuses) :
    (Resource.call rcfg loads h req).status ∈ allowedStatuses := by
  cases hnb : normalizeBody loads (pyUpper req.method) req with
  | error e =>
      simp only [Resource.call, hnb]
      simpa [apiErrResponse] using apiErr_status_allowed e
  | ok req2 =>
    cases hms : alistGet (pyUpper req.method) Resource.callmap with
    | none =>
        simp only [Resource.call, hnb, hms]
        simpa [apiErrResponse] using
          apiErr_status_allowed (.notImplemented (pyUpper req.method))
    | some ms =>
      cases hinv : h.invoke ms req2 with
      | apiErr e =>
          simp only [Resource.call, hnb, hms, hinv]
          simpa [apiErrResponse] using apiErr_status_allowed e
      | fault d =>
          simp only [Resource.call, hnb, hms, hinv]
          simp [faultResponse, allowedStatuses]
      | ok r hst =>
        cases r with
        | none =>
            simp only [Resource.call, hnb, hms, hinv]
            simp [allowedStatuses]
        | some result =>
          cases hout : alistGet ((alistGet "output" req2.REQUEST).getD "default")
              rcfg.output with
          | none =>
              simp only [Resource.call, hnb, hms, hinv, hout]
              simp [faultResponse, allowedStatuses]
          | some ecfg =>
            cases hst with
            | none =>
                simp only [Resource.call, hnb, hms, hinv, hout]
                simp [allowedStatuses]
            | some s =>
                simp only [Resource.call, hnb, hms, hinv, hout]
                simpa using hstat ms req2 (some result) s hinv

/-- Witness for C8 on a handler that never sets an explicit status. -/
theorem c8_status_codes_witness :
    (Resource.call stdCfg loadsNone baseHandler reqC8).status ∈ allowedStatuses :=
  c8_status_codes stdCfg loadsNone baseHandler reqC8
    (fun ms req2 r s hok => by
      simp only [Handler.invoke, baseHandler] at hok
      split at hok <;> simp_all)

/-- C9: a request whose resolved handler method returns `None` responds
204 with an empty body and plain-text content type, without invoking the
serializer (the response does not depend on the output registry). -/
theorem c9_null_result_204 (rcfg : ResourceCfg) (loads : String → Option Value)
    (h : Handler) (req req2 : Request) (ms : String) (hst : Option Nat)
    (h1 : normalizeBody loads (pyUpper req.method) req = .ok req2)
    (h2 : alistGet (pyUpper req.method) Resource.callmap = some ms)
    (h3 : h.invoke ms req2 = .ok none hst) :
    Resource.call rcfg loads h req =
      { stream := .raw "", status := 204, mimetype := "text/plain" } ∧
    ∀ out2 : List (String × EmitterCfg),
      Resource.call { rcfg with output := out2 } loads h req =
        Resource.call rcfg loads h req := by
  have hcall : ∀ rcfg2 : ResourceCfg, Resource.call rcfg2 loads h req =
      { stream := .raw "", status := 204, mimetype := "text/plain" } := by
    intro rcfg2
    simp only [Resource.call, h1, h2, h3]
  exact ⟨hcall rcfg, fun out2 => (hcall _).trans (hcall rcfg).symm⟩

/-- A handler whose `read` returns `None`. -/
def handlerC9 : Handler :=
  { baseHandler with read := fun _ => .ok none none }

/-- Witness for C9: a GET to a handler returning `None` yields the
204 empty-body plain-text response. -/
theorem c9_null_result_204_witness :
    Resource.call stdCfg loadsNone handlerC9 reqC8 =
      { stream := .raw "", status := 204, mimetype := "text/plain" } :=
  (c9_null_result_204 stdCfg loadsNone handlerC9 reqC8 reqC8 "read" none
    rfl rfl rfl).1

/-- If some item's key is not a declared field, the update loop stops
with `InvalidParameter` naming an undeclared key of the items. -/
theorem updateLoop_bad_key (fields : List FieldMeta) :
    (items : List (String × Value)) → (attrs m2ms : List (String × Value)) →
    (∃ p ∈ items, metaGetField fields p.1 = none) →
    ∃ k, (∃ v, (k, v) ∈ items) ∧ metaGetField fields k = none ∧
      (ModelHandler.updateLoop fields items attrs m2ms).1 =
        some (.invalidParameter k none false none)
  | [], _, _, h => absurd h (by simp)
  | (key, value) :: rest, attrs, m2ms, h => by
      cases hk : metaGetField fields key with
      | none =>
          exact ⟨key, ⟨value, List.mem_cons_self _ _⟩, hk,
            by simp [ModelHandler.updateLoop, hk]⟩
      | some f =>
          have hrest : ∃ p ∈ rest, metaGetField fields p.1 = none := by
            obtain ⟨p, hp, hbad⟩ := h
            rcases List.mem_cons.mp hp with hp | hp
            · rw [hp] at hbad; exact absurd hbad (by simp [hk])
            · exact ⟨p, hp, hbad⟩
          by_cases hm : f.isM2M
          · obtain ⟨k, ⟨v, hv⟩, hkn, heq⟩ :=
              updateLoop_bad_key fields rest attrs (m2ms ++ [(key, value)]) hrest
            exact ⟨k, ⟨v, List.mem_cons_of_mem _ hv⟩, hkn,
              by simp [ModelHandler.updateLoop, hk, hm, heq]⟩
          · obtain ⟨k, ⟨v, hv⟩, hkn, heq⟩ :=
              updateLoop_bad_key fields rest (attrs ++ [(key, value)]) m2ms hrest
            exact ⟨k, ⟨v, List.mem_cons_of_mem _ hv⟩, hkn,
              by simp [ModelHandler.updateLoop, hk, hm, heq]⟩

/-- C10: when the update items contain a key that is not a declared field
of the model, `_object_update` raises `InvalidParameter` naming such a
key (its message is "The provided KEY was invalid."), `obj.save()` is
never called, and no many-to-many write is performed — the persistent
store is unchanged. -/
theorem c10_undeclared_key_no_save (fields : List FieldMeta)
    (cleanError : Option String) (items : List (String × Value))
    (hbad : ∃ p ∈ items, metaGetField fields p.1 = none) :
    ∃ k, (∃ v, (k, v) ∈ items) ∧ metaGetField fields k = none ∧
      (ModelHandler.objectUpdate fields cleanError items).1 =
        some (.invalidParameter k none false none) ∧
      (APIErr.invalidParameter k none false none).message =
        "The provided " ++ k ++ " was invalid." ∧
      (ModelHandler.objectUpdate fields cleanError items).2.saveCalled = false ∧
      (ModelHandler.objectUpdate fields cleanError items).2.m2mWrites = [] := by
  obtain ⟨k, hkv, hkn, heq⟩ := updateLoop_bad_key fields items [] [] hbad
  refine ⟨k, hkv, hkn, ?_⟩
  unfold ModelHandler.objectUpdate
  rcases hres : ModelHandler.updateLoop fields items [] [] with ⟨oe, attrs, m2ms⟩
  rw [hres] at heq
  simp only at heq
  rw [heq]
  exact ⟨rfl, rfl, rfl, rfl⟩

/-- The model's declared fields for the C10 witness. -/
def fieldsC10 : List FieldMeta := [⟨"name", false⟩, ⟨"tags", true⟩]

/-- Update items holding one declared key and one undeclared key. -/
def itemsC10 : List (String × Value) := [("name", .str "x"), ("bogus", .int 5)]

/-- Witness for C10 at a concrete undeclared key. -/
theorem c10_undeclared_key_no_save_witness :
    (∃ p ∈ itemsC10, metaGetField fieldsC10 p.1 = none) ∧
    ∃ k, (∃ v, (k, v) ∈ itemsC10) ∧ metaGetField fieldsC10 k = none ∧
      (ModelHandler.objectUpdate fieldsC10 none itemsC10).1 =
        some (.invalidParameter k none false none) ∧
      (APIErr.invalidParameter k none false none).message =
        "The provided " ++ k ++ " was invalid." ∧
      (ModelHandler.objectUpdate fieldsC10 none itemsC10).2.saveCalled = false ∧
      (ModelHandler.objectUpdate fieldsC10 none itemsC10).2.m2mWrites = [] :=
  ⟨⟨("bogus", .int 5), List.mem_cons_of_mem _ (List.mem_cons_self _ _), rfl⟩,
   c10_undeclared_key_no_save fieldsC10 none itemsC10
     ⟨("bogus", .int 5), List.mem_cons_of_mem _ (List.mem_cons_self _ _), rfl⟩⟩

end Shimmer
